import Mathlib

/-!
Shallow embedding of the RedisLockInventory services (src/app/services/).

A Redis string key holding an integer counter is modelled as Option Int
(none = key absent).  A lock key is modelled as Option String (the stored
token) or, on the redlock cluster, as Option (String x Nat) recording the
token together with the TTL requested at SET time (the TTL is recorded but
never read back: the source performs no clock reads in these code paths).
Server-side Lua scripts become pure Lean functions on these states; the
single-threaded execution of a script at the store is what makes this
faithful.  Per-endpoint network exceptions (caught and skipped by the
source) are not modelled: all claims below concern the values computed for
responsive endpoints, and for the quorum read an erroring endpoint is
indistinguishable from an absent key, so it is covered by none.
-/

/-- Application settings relevant to the services
(src/app/core/config.py lines 33-35, with the defaults given there). -/
structure Settings where
  lock_timeout_seconds : Nat
  lock_retry_attempts : Nat
  lock_retry_delay_ms : Nat
deriving DecidableEq, Repr

/-- Default settings from src/app/core/config.py. -/
def defaultSettings : Settings := ⟨10, 3, 100⟩

/-- Lua decrement script shared by InventoryService.decrease_stock,
RedlockManualService.decrease_stock_sync / _async and
RedlockAioredlockService.decrease_stock_with_redlock: GET the counter;
absent key returns -2; if current >= quantity, DECRBY and return the
remainder (>= 0); otherwise leave the counter and return -1.
Result: (new counter value, script return value). -/
def luaDecrease (stock : Option Int) (q : Int) : Option Int × Int :=
  match stock with
  | none => (none, -2)
  | some s => if q ≤ s then (some (s - q), s - q) else (some s, -1)

/-- Redis SET key value NX: set only when the key is absent; the Bool is
the command reply (true when the set happened). -/
def setnx (stock : Option Int) (q : Int) : Option Int × Bool :=
  match stock with
  | none => (some q, true)
  | some s => (some s, false)

/-- InventoryService.initialize_stock (src/app/services/inventory_service.py
lines 15-34): SETNX of the quantity under stock:{product_id}; True when the
counter was seeded, False when it already existed. -/
def initialize_stock (stock : Option Int) (q : Int) : Option Int × Bool :=
  setnx stock q

/-- Redis INCRBY: an absent key is created at 0 before the addition. -/
def incrby (stock : Option Int) (q : Int) : Option Int :=
  match stock with
  | none => some q
  | some s => some (s + q)

/-- Owner-verified release script shared by InventoryService._release_lock,
ProductService.create_product and RedlockManualService._release_locks /
_release_locks_async: DEL the lock key iff the stored value equals the
token of the caller, else leave it and return 0.
Result: (new lock state, whether a delete happened). -/
def releaseScript (stored : Option String) (token : String) : Option String × Bool :=
  if stored = some token then (none, true) else (stored, false)

/-- InventoryService.get_stock: returns the integer under stock:{id}, or
none when the key is absent. -/
def get_stock (stock : Option Int) : Option Int := stock

/-- Index of the first attempt at which the lock key is observed free.
The oracle lockAt gives the foreign content of lock:stock:{id} at each
retry attempt of InventoryService.decrease_stock (none = free, so the
SETNX acquire of that attempt succeeds). -/
def firstFreeAttempt (lockAt : Nat → Option String) (attempts : Nat) : Option Nat :=
  (List.range attempts).find? (fun i => (lockAt i).isNone)

/-- InventoryService.decrease_stock (src/app/services/inventory_service.py
lines 120-230): up to settings.lock_retry_attempts acquire attempts; on the
first successful acquire the decrement script runs once and the function
returns (script result >= 0), releasing the lock; if no attempt acquires
the lock the function returns False with the counter untouched.
Result: (new counter value, success flag). -/
def decrease_stock (stock : Option Int) (q : Int) (settings : Settings)
    (lockAt : Nat → Option String) : Option Int × Bool :=
  match firstFreeAttempt lockAt settings.lock_retry_attempts with
  | none => (stock, false)
  | some _ =>
    let r := luaDecrease stock q
    (r.1, decide (0 ≤ r.2))

/-- Error kinds raised by the purchase orchestrator
(src/app/core/exceptions.py); commitFailed stands for the uncategorized
exception re-raised after a relational commit failure. -/
inductive PurchaseError
  | productNotFound
  | insufficientStock
  | lockAcquisitionFailure
  | commitFailed
deriving DecidableEq, Repr

/-- Observable state touched by PurchaseService.purchase_product: the hot
counter, the relational mirror Product.stock, and the purchase ledger
(list of committed quantities, newest first). -/
structure PurchaseState where
  stock : Option Int
  dbStock : Int
  ledger : List Int
deriving DecidableEq, Repr

/-- PurchaseService.purchase_product (src/app/services/purchase_service.py
lines 26-121).  productExists reflects the C5 lookup; lockAt is the foreign
lock content seen at each retry attempt; commitFails injects a relational
commit failure.  On a failed decrease the cause is inferred from a fresh
read of the counter (lines 71-86).  On commit failure the session is rolled
back and the code attempts InventoryService.increase_stock inside a bare
try/except (lines 111-121); that attribute does not exist anywhere in the
repository, so the lookup raises AttributeError, the except swallows it,
and the hot counter is left unchanged before the original error is
re-raised.  Result: (final state, None on success / the raised error). -/
def purchase_product (q : Int) (st : PurchaseState) (settings : Settings)
    (lockAt : Nat → Option String) (commitFails : Bool) (productExists : Bool) :
    PurchaseState × Option PurchaseError :=
  if !productExists then (st, some .productNotFound)
  else
    let d := decrease_stock st.stock q settings lockAt
    if !d.2 then
      match get_stock d.1 with
      | none => ({ st with stock := d.1 }, some .productNotFound)
      | some c =>
        if c < q then ({ st with stock := d.1 }, some .insufficientStock)
        else ({ st with stock := d.1 }, some .lockAcquisitionFailure)
    else
      let synced : Int :=
        match get_stock d.1 with
        | some v => v
        | none => st.dbStock
      if commitFails then
        ({ st with stock := d.1 }, some .commitFailed)
      else
        ({ stock := d.1, dbStock := synced, ledger := q :: st.ledger }, none)

/-- View returned by ProductService.get_product_with_stock. -/
structure StockView where
  db_stock : Int
  redis_stock : Int
  synced : Bool
deriving DecidableEq, Repr

/-- ProductService.get_product_with_stock (src/app/services/product_service.py
lines 144-190), parameterized by the three successive observations of a
possibly concurrently mutated Redis: r1 the first GET of the counter,
seedOk the reply of the lazy SETNX seed (consulted only when r1 is none),
and r2 the re-read after a failed seed (consulted only when the seed
reported the key already present).  When even r2 is none the code falls
back to the database stock; synced compares db stock with the chosen
redis stock. -/
def get_product_with_stock (productStock : Option Int)
    (r1 : Option Int) (seedOk : Bool) (r2 : Option Int) : Option StockView :=
  match productStock with
  | none => none
  | some dbs =>
    let rs : Int :=
      match r1 with
      | some v => v
      | none =>
        if seedOk then dbs
        else
          match r2 with
          | some v => v
          | none => dbs
    some ⟨dbs, rs, decide (dbs = rs)⟩

/-- Value returned most frequently among the responses, the Python call
max(set(stock_values), key=stock_values.count) as used by the quorum
read.  CPython iterates the set in an unspecified order, so which value
wins a tie of counts is implementation-defined; the embedding fixes the
first maximal element of the deduplicated list.  Every property proved
below is independent of this tie-break (a strict-majority value is the
unique maximum, and the some/none distinction does not depend on which
maximal value is chosen). -/
def pyMode (xs : List Int) : Int :=
  (xs.dedup.argmax (fun v => xs.count v)).getD 0

/-- RedlockManualService.get_stock and RedlockAioredlockService.get_stock
(identical bodies, src/app/services/redlock_manual_service.py lines 54-88
and redlock_aioredlock_service.py lines 52-86): reads is the per-endpoint
GET outcome (none covers both an absent key and an erroring endpoint,
which contribute nothing to stock_values while still counting toward N);
if no endpoint returned a value the result is none; if at least
floor(N/2)+1 endpoints returned values the result is the most frequent
returned value; otherwise none. -/
def redlock_get_stock (reads : List (Option Int)) : Option Int :=
  let stock_values := reads.filterMap id
  if stock_values.isEmpty then none
  else if reads.length / 2 + 1 ≤ stock_values.length then some (pyMode stock_values)
  else none

/-- State of one redlock endpoint: its copy of the stock counter and of the
lock key; a held lock stores the token and the TTL requested at SET time. -/
structure Node where
  stock : Option Int
  lock : Option (String × Nat)
deriving DecidableEq, Repr

/-- Conditional set of the lock on one endpoint (SET key token NX EX ttl)
inside RedlockManualService.decrease_stock_sync step 1. -/
def redlockAcquireNode (token : String) (ttl : Nat) (n : Node) : Node × Bool :=
  match n.lock with
  | none => ({ n with lock := some (token, ttl) }, true)
  | some _ => (n, false)

/-- Decrement script run on one endpoint in step 3 of decrease_stock_sync;
the Bool is the Python success test result >= 0. -/
def redlockDecNode (q : Int) (n : Node) : Node × Bool :=
  let r := luaDecrease n.stock q
  ({ n with stock := r.1 }, decide (0 ≤ r.2))

/-- Unconditional INCRBY rollback script run on one endpoint when the
decrement quorum fails (step 4 of decrease_stock_sync). -/
def redlockRollbackNode (q : Int) (n : Node) : Node :=
  { n with stock := incrby n.stock q }

/-- Owner-verified release on one endpoint, applied only to the endpoints
recorded in acquired_locks (RedlockManualService._release_locks). -/
def redlockReleaseNode (token : String) (acquired : Bool) (n : Node) : Node :=
  if acquired then
    match n.lock with
    | some tt => if tt.1 = token then { n with lock := none } else n
    | none => n
  else n

/-- Release pass over the whole cluster: endpoint i is released exactly
when its acquisition flag is true. -/
def releasePhase (token : String) (acquired : List Bool) (nodes : List Node) :
    List Node :=
  List.zipWith (redlockReleaseNode token) acquired nodes

/-- RedlockManualService.decrease_stock_sync
(src/app/services/redlock_manual_service.py lines 90-180): one pass of
conditional sets over all endpoints; if fewer than floor(N/2)+1 acquired,
release the acquired ones and return False; otherwise run the decrement
script on every endpoint, and if fewer than quorum decrements succeeded
run the unconditional INCRBY rollback on every endpoint and return False,
else return True; in all paths the acquired locks are released at the end.
The source reads no clock anywhere in this function, so no elapsed-time
condition participates in any of these decisions.
Result: (final endpoint states, success flag). -/
def decrease_stock_sync (q : Int) (token : String) (settings : Settings)
    (nodes : List Node) : List Node × Bool :=
  let acqRes := nodes.map (redlockAcquireNode token settings.lock_timeout_seconds)
  let nodes1 := acqRes.map Prod.fst
  let acquired := acqRes.map Prod.snd
  let quorum := nodes.length / 2 + 1
  if acquired.count true < quorum then
    (releasePhase token acquired nodes1, false)
  else
    let decRes := nodes1.map (redlockDecNode q)
    let nodes2 := decRes.map Prod.fst
    if quorum ≤ (decRes.map Prod.snd).count true then
      (releasePhase token acquired nodes2, true)
    else
      (releasePhase token acquired (nodes2.map (redlockRollbackNode q)), false)

/-- RedlockManualService.decrease_stock_async
(src/app/services/redlock_manual_service.py lines 182-302): issues the same
per-endpoint commands as the sync variant through run_in_executor and
gathers each phase before starting the next; endpoint states are mutually
independent, so its effect and result coincide with decrease_stock_sync. -/
def decrease_stock_async (q : Int) (token : String) (settings : Settings)
    (nodes : List Node) : List Node × Bool :=
  decrease_stock_sync q token settings nodes

/-- Endpoints whose lock key is free, i.e. whose conditional set succeeds
in step 1 of decrease_stock_sync. -/
def freeLockCount (nodes : List Node) : Nat :=
  nodes.countP (fun n => n.lock.isNone)

/-- Endpoints on which the decrement script takes effect: the counter is
present and at least the quantity. -/
def decSuccessCount (q : Int) (nodes : List Node) : Nat :=
  nodes.countP (fun n =>
    match n.stock with
    | some s => decide (q ≤ s)
    | none => false)

/-- One InventoryService operation on the hot counter of a product: init is the
SETNX seed of initialize_stock; dec is decrease_stock with the given
quantity, whose counter effect is the decrement script when some retry
attempt acquires the lock (acquired = true) and no change at all when every
attempt finds the lock held (acquired = false). -/
inductive StockOp
  | init (q : Int)
  | dec (q : Int) (acquired : Bool)
deriving DecidableEq, Repr

/-- Counter effect of one InventoryService operation (the lock key itself
is not part of the counter state). -/
def applyStockOp (st : Option Int) : StockOp → Option Int
  | .init q => (initialize_stock st q).1
  | .dec q acquired => if acquired then (luaDecrease st q).1 else st

/-- Quantity discipline assumed by the claim: seeds are non-negative,
decrements are positive. -/
def validStockOp : StockOp → Bool
  | .init q => decide (0 ≤ q)
  | .dec q _ => decide (0 < q)

/-- The counter is absent or non-negative. -/
def stockNonneg : Option Int → Bool
  | none => true
  | some s => decide (0 ≤ s)

/-- Formalization of the acquisition condition asserted by claim C6 over a
run of decrease_stock_sync: the run is extended with the elapsed wall time
of the acquisition phase as a ghost parameter.  The source function
performs no clock read (src/app/services/redlock_manual_service.py lines
109-180), so the elapsed time is unconstrained by the code and the claimed
implication, if true of the code, must hold for every value of the ghost
parameter. -/
def c6AcquisitionClaim : Prop :=
  ∀ (elapsedMs : Nat) (q : Int) (token : String) (s : Settings) (nodes : List Node),
    (decrease_stock_sync q token s nodes).2 = true →
    nodes.length / 2 + 1 ≤ freeLockCount nodes ∧
    elapsedMs < s.lock_timeout_seconds * 1000

theorem zipWith_map_same {α β γ δ : Type} (f : β → γ → δ) (g : α → β) (h : α → γ) :
    ∀ l : List α, List.zipWith f (l.map g) (l.map h) = l.map (fun x => f (g x) (h x))
  | [] => rfl
  | a :: l => by simp [zipWith_map_same f g h l]

theorem redlockAcquireNode_fst_stock (token : String) (ttl : Nat) (n : Node) :
    (redlockAcquireNode token ttl n).1.stock = n.stock := by
  rcases n with ⟨st, lk⟩
  cases lk <;> rfl

theorem redlockAcquireNode_snd (token : String) (ttl : Nat) (n : Node) :
    (redlockAcquireNode token ttl n).2 = n.lock.isNone := by
  rcases n with ⟨st, lk⟩
  cases lk <;> rfl

theorem redlockDecNode_snd (q : Int) (n : Node) :
    (redlockDecNode q n).2 =
      (match n.stock with
       | some s => decide (q ≤ s)
       | none => false) := by
  rcases n with ⟨st, lk⟩
  cases st with
  | none => rfl
  | some s =>
    by_cases h : q ≤ s
    · simp [redlockDecNode, luaDecrease, h, sub_nonneg]
    · simp [redlockDecNode, luaDecrease, h]

theorem acquire_release_roundtrip (token : String) (ttl : Nat) (n : Node) :
    redlockReleaseNode token (redlockAcquireNode token ttl n).2
      (redlockAcquireNode token ttl n).1 = n := by
  rcases n with ⟨st, lk⟩
  cases lk <;> simp [redlockAcquireNode, redlockReleaseNode]

theorem dec_rollback_stock (q : Int) (st : Option Int) :
    incrby (luaDecrease st q).1 q =
      (match st with
       | some v => if q ≤ v then some v else some (v + q)
       | none => some q) := by
  cases st with
  | none => rfl
  | some v =>
    by_cases h : q ≤ v
    · simp [luaDecrease, incrby, h]
    · simp [luaDecrease, incrby, h]

theorem count_true_map_snd_acquire (token : String) (ttl : Nat) (nodes : List Node) :
    (((nodes.map (redlockAcquireNode token ttl)).map Prod.snd).count true)
      = freeLockCount nodes := by
  simp only [List.map_map, List.count, freeLockCount, List.countP_map]
  apply List.countP_congr
  intro n _
  simp [Function.comp, redlockAcquireNode_snd]

theorem count_true_map_snd_dec (q : Int) (token : String) (ttl : Nat) (nodes : List Node) :
    (((((nodes.map (redlockAcquireNode token ttl)).map Prod.fst).map (redlockDecNode q)).map Prod.snd).count true)
      = decSuccessCount q nodes := by
  simp only [List.map_map, List.count, decSuccessCount, List.countP_map]
  apply List.countP_congr
  intro n _
  simp only [Function.comp]
  rw [redlockDecNode_snd, redlockAcquireNode_fst_stock]
  simp

theorem acquire_dec_release_node (q : Int) (token : String) (ttl : Nat) (n : Node) :
    redlockReleaseNode token (redlockAcquireNode token ttl n).2
      (redlockDecNode q (redlockAcquireNode token ttl n).1).1
      = ⟨(luaDecrease n.stock q).1, n.lock⟩ := by
  rcases n with ⟨st, lk⟩
  cases lk <;> simp [redlockAcquireNode, redlockDecNode, redlockReleaseNode]

theorem acquire_dec_rollback_release_node (q : Int) (token : String) (ttl : Nat) (n : Node) :
    redlockReleaseNode token (redlockAcquireNode token ttl n).2
      (redlockRollbackNode q (redlockDecNode q (redlockAcquireNode token ttl n).1).1)
      = ⟨(match n.stock with
          | some v => if q ≤ v then some v else some (v + q)
          | none => some q), n.lock⟩ := by
  have hst := dec_rollback_stock q n.stock
  rcases n with ⟨st, lk⟩
  cases lk <;>
    simp only [redlockAcquireNode, redlockDecNode, redlockRollbackNode,
      redlockReleaseNode, if_pos, if_neg] <;>
    simp [hst]

theorem decrease_stock_sync_eq (q : Int) (token : String) (s : Settings) (nodes : List Node) :
    decrease_stock_sync q token s nodes =
      if freeLockCount nodes < nodes.length / 2 + 1 then (nodes, false)
      else if nodes.length / 2 + 1 ≤ decSuccessCount q nodes then
        (nodes.map (fun n => ⟨(luaDecrease n.stock q).1, n.lock⟩), true)
      else
        (nodes.map (fun n =>
          ⟨(match n.stock with
            | some v => if q ≤ v then some v else some (v + q)
            | none => some q), n.lock⟩), false) := by
  simp only [decrease_stock_sync, releasePhase]
  rw [count_true_map_snd_acquire, count_true_map_snd_dec]
  by_cases h1 : freeLockCount nodes < nodes.length / 2 + 1
  · simp only [if_pos h1]
    simp only [List.map_map]
    rw [zipWith_map_same]
    congr 1
    refine (List.map_congr_left ?_).trans (List.map_id nodes)
    intro n _
    exact acquire_release_roundtrip token s.lock_timeout_seconds n
  · simp only [if_neg h1]
    by_cases h2 : nodes.length / 2 + 1 ≤ decSuccessCount q nodes
    · simp only [if_pos h2]
      simp only [List.map_map]
      rw [zipWith_map_same]
      congr 1
      apply List.map_congr_left
      intro n _
      exact acquire_dec_release_node q token s.lock_timeout_seconds n
    · simp only [if_neg h2]
      simp only [List.map_map]
      rw [zipWith_map_same]
      congr 1
      apply List.map_congr_left
      intro n _
      exact acquire_dec_rollback_release_node q token s.lock_timeout_seconds n

/-- C7: for every lock key state and every token t, the owner-verified
release deletes the lock key if and only if the currently stored token
equals t; when the stored token differs or the key is absent, the lock
state is left unchanged and the release reports a no-op (return 0, i.e.
false), not an error.  Stated for the single-endpoint script of
InventoryService._release_lock and for the identical per-endpoint release
of RedlockManualService._release_locks (whose stored value is the token
string; the recorded TTL is SET metadata, not part of the stored value). -/
theorem release_owner_verified :
    ∀ (stored : Option String) (t : String) (n : Node),
      ((releaseScript stored t).2 = true ↔ stored = some t) ∧
      (releaseScript stored t).1 = (if stored = some t then none else stored) ∧
      (redlockReleaseNode t true n).lock
        = (if n.lock.map Prod.fst = some t then none else n.lock) ∧
      (redlockReleaseNode t true n).stock = n.stock := by
  intro stored t n
  refine ⟨?_, ?_, ?_, ?_⟩
  · by_cases h : stored = some t <;> simp [releaseScript, h]
  · by_cases h : stored = some t <;> simp [releaseScript, h]
  · rcases n with ⟨st, lk⟩
    rcases lk with _ | ⟨tk, ttl⟩
    · simp [redlockReleaseNode]
    · by_cases h : tk = t <;> simp [redlockReleaseNode, h]
  · rcases n with ⟨st, lk⟩
    rcases lk with _ | ⟨tk, ttl⟩
    · rfl
    · by_cases h : tk = t <;> simp [redlockReleaseNode, h]

/-- C8: starting from an absent counter, initialize_stock(id, q1) followed
by initialize_stock(id, q2) leaves the counter at q1; the first call
reports seeded (True), the second reports already present (False). -/
theorem initialize_stock_first_seed_wins :
    ∀ q1 q2 : Int,
      (initialize_stock none q1).2 = true ∧
      (initialize_stock (initialize_stock none q1).1 q2).1 = some q1 ∧
      (initialize_stock (initialize_stock none q1).1 q2).2 = false := by
  intro q1 q2
  exact ⟨rfl, rfl, rfl⟩

/-- C10: when the hot counter is absent (first read none), the lazy SETNX
seed reports the key already present (False), and the re-read still
returns none, get_product_with_stock substitutes the database stock for
the hot stock, so the returned view carries redis_stock = db_stock and
synced = true: the absent counter is never surfaced as divergence. -/
theorem product_view_absent_counter_reports_synced :
    ∀ dbs : Int,
      get_product_with_stock (some dbs) none false none
        = some ⟨dbs, dbs, true⟩ := by
  intro dbs
  simp [get_product_with_stock]

/-- C1 (code bug): a purchase of quantity 5 against hot counter 10 whose
relational commit fails ends with the counter still at 5 and the original
failure re-raised: the compensation step calls
InventoryService.increase_stock, which is not defined anywhere in the
repository, so the AttributeError is swallowed by the bare except and no
compensating increment happens — contradicting the test suite of the repository itself:
test_rollback_on_db_error (src/tests/services/test_purchase_service.py),
which asserts the counter is restored to 10. -/
theorem purchase_commit_failure_leaves_counter_decremented :
    purchase_product 5 ⟨some 10, 10, []⟩ defaultSettings (fun _ => none) true true
      = (⟨some 5, 10, []⟩, some PurchaseError.commitFailed) := by
  rfl

/-- C1 counterpart evidence is the theorem above; C3 counterexample: when
every lock-acquisition attempt finds the lock held by another holder and
the untouched counter (3) is smaller than the requested quantity (5), the
orchestrator raises InsufficientStock — not LockAcquisitionFailure as the
claim states — although the store decrement never ran and never reported
insufficient stock. -/
theorem lock_exhaustion_reported_as_insufficient_stock :
    (purchase_product 5 ⟨some 3, 3, []⟩ defaultSettings (fun _ => some "held") false true).2
        = some PurchaseError.insufficientStock ∧
      some PurchaseError.insufficientStock ≠ some PurchaseError.lockAcquisitionFailure ∧
      (purchase_product 5 ⟨some 3, 3, []⟩ defaultSettings (fun _ => some "held") false true).1.stock
        = some 3 := by
  exact ⟨rfl, by decide, rfl⟩

/-- C3 (amended): when every lock-acquisition attempt fails and the
counter holds c, purchase_product infers the failure cause from a fresh
read of the counter: it raises LockAcquisitionFailure exactly when c is at
least the requested quantity, and raises InsufficientStock whenever c is
smaller — even though the decrement never reported insufficient stock; the
counter itself is left unmodified. -/
theorem purchase_failure_cause_disambiguation :
    ∀ (q c : Int) (st : PurchaseState) (s : Settings)
      (lockAt : Nat → Option String) (commitFails : Bool),
      (∀ i, lockAt i ≠ none) → st.stock = some c →
      (purchase_product q st s lockAt commitFails true).1.stock = some c ∧
      (c < q →
        (purchase_product q st s lockAt commitFails true).2
          = some PurchaseError.insufficientStock) ∧
      (q ≤ c →
        (purchase_product q st s lockAt commitFails true).2
          = some PurchaseError.lockAcquisitionFailure) := by
  intro q c st s lockAt commitFails hlock hst
  have hfree : firstFreeAttempt lockAt s.lock_retry_attempts = none := by
    apply List.find?_eq_none.mpr
    intro i _
    simp [Option.isNone_iff_eq_none, hlock i]
  have hd : decrease_stock st.stock q s lockAt = (st.stock, false) := by
    unfold decrease_stock
    rw [hfree]
  rw [hst] at hd
  by_cases hcq : c < q
  · refine ⟨?_, fun _ => ?_, fun hqc => absurd hqc (not_le.mpr hcq)⟩ <;>
      simp [purchase_product, hd, get_stock, hst, hcq]
  · refine ⟨?_, fun hlt => absurd hlt hcq, fun _ => ?_⟩ <;>
      simp [purchase_product, hd, get_stock, hst, hcq]

/-- Witness for the amended C3 theorem at counter 7, quantity 5, with
every attempt finding the lock held. -/
theorem purchase_failure_cause_disambiguation_witness :
    (purchase_product 5 ⟨some 7, 7, []⟩ defaultSettings (fun _ => some "held") false true).2
      = some PurchaseError.lockAcquisitionFailure :=
  (purchase_failure_cause_disambiguation 5 7 ⟨some 7, 7, []⟩ defaultSettings
      (fun _ => some "held") false (fun _ h => Option.noConfusion h) rfl).2.2 (by decide)

/-- C2: for every sequence of InventoryService operations — SETNX seeds of
non-negative quantity and lock-guarded decrements of positive quantity
(whose counter effect is the server-side script when some attempt acquired
the lock and no change otherwise) — a counter that starts absent or
non-negative is absent or non-negative after the sequence; since the
theorem quantifies over all sequences, it applies to every prefix and
hence to every observable state. -/
theorem stock_counter_nonnegative :
    ∀ (ops : List StockOp) (st : Option Int),
      stockNonneg st = true →
      (∀ op ∈ ops, validStockOp op = true) →
      stockNonneg (ops.foldl applyStockOp st) = true := by
  intro ops
  induction ops with
  | nil => intro st h _; exact h
  | cons op ops ih =>
    intro st h hv
    simp only [List.foldl_cons]
    apply ih
    · have hop : validStockOp op = true := hv op (List.mem_cons_self op ops)
      cases op with
      | init q =>
        cases st with
        | none => simpa [applyStockOp, initialize_stock, setnx, stockNonneg, validStockOp] using hop
        | some v => simpa [applyStockOp, initialize_stock, setnx, stockNonneg] using h
      | dec q acquired =>
        cases acquired with
        | false => simpa [applyStockOp] using h
        | true =>
          cases st with
          | none => simp [applyStockOp, luaDecrease, stockNonneg]
          | some v =>
            by_cases hq : q ≤ v
            · simp [applyStockOp, luaDecrease, hq, stockNonneg, sub_nonneg]
            · simpa [applyStockOp, luaDecrease, hq, stockNonneg] using h
    · intro o ho
      exact hv o (List.mem_cons_of_mem op ho)

/-- Witness for the non-negativity theorem: seed 10, take 3, then attempt
100 (rejected by the script); the counter ends at 7 which is
non-negative. -/
theorem stock_counter_nonnegative_witness :
    stockNonneg ([StockOp.init 10, StockOp.dec 3 true,
      StockOp.dec 100 true].foldl applyStockOp none) = true :=
  stock_counter_nonnegative
    [StockOp.init 10, StockOp.dec 3 true, StockOp.dec 100 true] none rfl (by decide)

theorem count_two_ne_le_length {a b : Int} (h : a ≠ b) :
    ∀ xs : List Int, xs.count a + xs.count b ≤ xs.length := by
  intro xs
  induction xs with
  | nil => simp
  | cons x xs ih =>
    simp only [List.count_cons, List.length_cons, beq_iff_eq]
    split_ifs with h1 h2
    · exact absurd (h1.symm.trans h2) h
    · omega
    · omega
    · omega

theorem pyMode_of_majority (xs : List Int) (v : Int) (N : Nat)
    (hlen : xs.length ≤ N) (hcount : N / 2 + 1 ≤ xs.count v) :
    pyMode xs = v := by
  have hvmem : v ∈ xs := by
    have hpos : 0 < xs.count v := lt_of_lt_of_le (Nat.succ_pos _) hcount
    exact List.count_pos_iff.mp hpos
  have hvded : v ∈ xs.dedup := List.mem_dedup.mpr hvmem
  obtain ⟨m, hm⟩ : ∃ m, xs.dedup.argmax (fun w => xs.count w) = some m := by
    cases hh : xs.dedup.argmax (fun w => xs.count w) with
    | none =>
      exfalso
      have hnil := List.argmax_eq_none.mp hh
      rw [hnil] at hvded
      exact absurd hvded (List.not_mem_nil v)
    | some m => exact ⟨m, rfl⟩
  have hmem : m ∈ xs.dedup := List.argmax_mem hm
  have hle : xs.count v ≤ xs.count m := List.le_of_mem_argmax hvded hm
  by_cases hmv : m = v
  · rw [pyMode, hm, hmv]
    rfl
  · exfalso
    have hsum : xs.count m + xs.count v ≤ xs.length := count_two_ne_le_length hmv xs
    omega

/-- C4 counterexample: three endpoints holding 5, 6 and 7 — no value is
held by floor(3/2)+1 = 2 endpoints — yet the quorum read does not return
none: the source checks only that the number of responding endpoints
reaches quorum and then returns the most frequent value (here the
tie-break of the embedding picks 5; the CPython choice among the three singleton
counts depends on set iteration order, but any choice contradicts the
claimed none). -/
theorem quorum_read_returns_value_without_majority :
    (∀ w : Int,
      (([some 5, some 6, some 7] : List (Option Int)).filterMap id).count w
        < ([some 5, some 6, some 7] : List (Option Int)).length / 2 + 1) ∧
    redlock_get_stock [some 5, some 6, some 7] = some 5 ∧
    (redlock_get_stock [some 5, some 6, some 7]).isSome = true := by
  refine ⟨?_, rfl, rfl⟩
  intro w
  show ([5, 6, 7] : List Int).count w < 2
  have hle := List.nodup_iff_count_le_one.mp (by decide : ([5, 6, 7] : List Int).Nodup) w
  omega

/-- C4 (amended): the quorum read returns V whenever at least
floor(N/2)+1 endpoints hold V (V is then the unique most frequent value);
when at least quorum endpoints respond it returns the most frequent
responded value — some value, even if none reaches quorum; and it returns
none exactly when fewer than quorum endpoints respond with a value. -/
theorem quorum_read_majority_and_plurality :
    ∀ (reads : List (Option Int)) (v : Int),
      (reads.length / 2 + 1 ≤ (reads.filterMap id).count v →
        redlock_get_stock reads = some v) ∧
      (reads.length / 2 + 1 ≤ (reads.filterMap id).length →
        (redlock_get_stock reads).isSome = true) ∧
      ((reads.filterMap id).length < reads.length / 2 + 1 →
        redlock_get_stock reads = none) := by
  intro reads v
  have hlenle : (reads.filterMap id).length ≤ reads.length :=
    List.length_filterMap_le id reads
  refine ⟨fun h => ?_, fun h => ?_, fun h => ?_⟩
  · have hcl : (reads.filterMap id).count v ≤ (reads.filterMap id).length :=
      List.count_le_length v (reads.filterMap id)
    have hne : ¬((reads.filterMap id).isEmpty = true) := by
      rw [List.isEmpty_iff]
      intro hnil
      rw [hnil] at h
      simp at h
    rw [redlock_get_stock]
    rw [if_neg hne, if_pos (le_trans h hcl)]
    exact congrArg some (pyMode_of_majority (reads.filterMap id) v reads.length hlenle h)
  · have hne : ¬((reads.filterMap id).isEmpty = true) := by
      rw [List.isEmpty_iff]
      intro hnil
      rw [hnil] at h
      simp at h
    rw [redlock_get_stock, if_neg hne, if_pos h]
    rfl
  · by_cases he : (reads.filterMap id).isEmpty = true
    · rw [redlock_get_stock, if_pos he]
    · rw [redlock_get_stock, if_neg he, if_neg (not_le.mpr h)]

/-- Witness for the amended C4 theorem: endpoints holding 4, 4, 9 — value
4 is held by quorum — read returns 4, and the read is some. -/
theorem quorum_read_majority_and_plurality_witness :
    redlock_get_stock [some 4, some 4, some 9] = some 4 ∧
    (redlock_get_stock [some 4, some 4, some 9]).isSome = true :=
  ⟨(quorum_read_majority_and_plurality [some 4, some 4, some 9] 4).1 (by decide),
   (quorum_read_majority_and_plurality [some 4, some 4, some 9] 4).2.1 (by decide)⟩

/-- C5 counterexample: three endpoints with stocks 10, 0, 0 and quantity
5: all three locks are acquired (3 of quorum 2), the decrement succeeds
only on the first endpoint (1 < 2), so the call rolls back and returns
failure — but the unconditional INCRBY rollback leaves endpoints 2 and 3
at 5, not at their pre-call value 0. -/
theorem redlock_rollback_not_state_restoring :
    (decrease_stock_sync 5 "t" defaultSettings
        [⟨some 10, none⟩, ⟨some 0, none⟩, ⟨some 0, none⟩]).2 = false ∧
    ((decrease_stock_sync 5 "t" defaultSettings
        [⟨some 10, none⟩, ⟨some 0, none⟩, ⟨some 0, none⟩]).1.map Node.stock)
      = [some 10, some 5, some 5] ∧
    ([⟨some 10, none⟩, ⟨some 0, none⟩, ⟨some 0, none⟩] : List Node).map Node.stock
      = [some 10, some 0, some 0] ∧
    ((some 5 : Option Int) ≠ some 0) := by
  refine ⟨rfl, rfl, rfl, by decide⟩

/-- C5 (amended): when the acquisition quorum is met but fewer than quorum
decrements succeed, decrease_stock_sync returns failure and the
unconditional INCRBY rollback runs on every endpoint: an endpoint whose
decrement applied is restored to its pre-call stock, while an endpoint
whose decrement did not apply (insufficient stock, or missing counter,
which INCRBY creates at the quantity) ends at its pre-call stock plus the
quantity; every lock key returns to its pre-call state. -/
theorem redlock_failed_quorum_rollback_effect :
    ∀ (q : Int) (token : String) (s : Settings) (nodes : List Node),
      nodes.length / 2 + 1 ≤ freeLockCount nodes →
      decSuccessCount q nodes < nodes.length / 2 + 1 →
      (decrease_stock_sync q token s nodes).2 = false ∧
      (decrease_stock_sync q token s nodes).1.map Node.stock
        = nodes.map (fun n =>
            match n.stock with
            | some v => if q ≤ v then some v else some (v + q)
            | none => some q) ∧
      (decrease_stock_sync q token s nodes).1.map Node.lock = nodes.map Node.lock := by
  intro q token s nodes h1 h2
  rw [decrease_stock_sync_eq, if_neg (not_lt.mpr h1), if_neg (not_le.mpr h2)]
  refine ⟨rfl, ?_, ?_⟩ <;> simp [List.map_map, Function.comp]

/-- Witness for the amended C5 theorem: endpoints with stocks 9 and
absent, quantity 5: quorum of locks is acquired, only one decrement
succeeds, the call fails and the rollback leaves stocks 9 and 5. -/
theorem redlock_failed_quorum_rollback_effect_witness :
    (decrease_stock_sync 5 "w" defaultSettings [⟨some 9, none⟩, ⟨none, none⟩]).2 = false ∧
    (decrease_stock_sync 5 "w" defaultSettings [⟨some 9, none⟩, ⟨none, none⟩]).1.map Node.stock
      = [some 9, some 5] := by
  have h := redlock_failed_quorum_rollback_effect 5 "w" defaultSettings
    [⟨some 9, none⟩, ⟨none, none⟩] (by decide) (by decide)
  exact ⟨h.1, h.2.1.trans rfl⟩

/-- C6 counterexample: the asserted acquisition condition is false of the
code: a three-endpoint run with all locks free and ample stock is declared
acquired and its decrement committed (result true) regardless of how long
the acquisition took, since decrease_stock_sync never reads a clock;
instantiating the ghost elapsed time at 20000 ms against the default TTL
of 10 s refutes the claimed bound, and the committed result refutes the
claimed end-of-critical-section re-check. -/
theorem redlock_no_elapsed_time_check : ¬ c6AcquisitionClaim := by
  intro h
  have hb := (h 20000 1 "t" defaultSettings
    [⟨some 10, none⟩, ⟨some 10, none⟩, ⟨some 10, none⟩] (by decide)).2
  exact absurd hb (by decide)

/-- C6 (amended): decrease_stock_sync declares the lock acquired exactly
when at least floor(N/2)+1 endpoints accept the conditional set — no
elapsed-wall-time condition participates — and returns success (decrement
committed) exactly when additionally at least quorum endpoint decrements
succeed, with no end-of-critical-section re-check against TTL or a
clock-drift budget. -/
theorem redlock_success_iff_two_quorums :
    ∀ (q : Int) (token : String) (s : Settings) (nodes : List Node),
      (decrease_stock_sync q token s nodes).2 = true ↔
        (nodes.length / 2 + 1 ≤ freeLockCount nodes ∧
         nodes.length / 2 + 1 ≤ decSuccessCount q nodes) := by
  intro q token s nodes
  rw [decrease_stock_sync_eq]
  by_cases h1 : freeLockCount nodes < nodes.length / 2 + 1
  · rw [if_pos h1]
    simp only [Prod.snd]
    constructor
    · intro hb
      exact absurd hb (by simp)
    · intro hc
      exact absurd hc.1 (not_le.mpr h1)
  · rw [if_neg h1]
    by_cases h2 : nodes.length / 2 + 1 ≤ decSuccessCount q nodes
    · rw [if_pos h2]
      constructor
      · intro _
        exact ⟨not_lt.mp h1, h2⟩
      · intro _
        rfl
    · rw [if_neg h2]
      simp only [Prod.snd]
      constructor
      · intro hb
        exact absurd hb (by simp)
      · intro hc
        exact absurd hc.2 h2

/-- C9: the manual redlock decrements perform a single acquisition round:
the result of decrease_stock_sync and decrease_stock_async is unchanged
when lock_retry_attempts and lock_retry_delay_ms are replaced by arbitrary
values, and when the acquisition quorum is not reached both return failure
immediately with every endpoint (stock and lock) exactly as before the
call. -/
theorem redlock_single_round_no_retry :
    ∀ (q : Int) (token : String) (s : Settings) (a d : Nat) (nodes : List Node),
      (decrease_stock_sync q token ⟨s.lock_timeout_seconds, a, d⟩ nodes
          = decrease_stock_sync q token s nodes) ∧
      (decrease_stock_async q token ⟨s.lock_timeout_seconds, a, d⟩ nodes
          = decrease_stock_async q token s nodes) ∧
      (freeLockCount nodes < nodes.length / 2 + 1 →
        decrease_stock_sync q token s nodes = (nodes, false) ∧
        decrease_stock_async q token s nodes = (nodes, false)) := by
  intro q token s a d nodes
  have hsync : decrease_stock_sync q token ⟨s.lock_timeout_seconds, a, d⟩ nodes
      = decrease_stock_sync q token s nodes := by
    rw [decrease_stock_sync_eq, decrease_stock_sync_eq]
  have hfail : freeLockCount nodes < nodes.length / 2 + 1 →
      decrease_stock_sync q token s nodes = (nodes, false) := by
    intro h
    rw [decrease_stock_sync_eq, if_pos h]
  exact ⟨hsync, hsync, fun h => ⟨hfail h, hfail h⟩⟩

/-- Witness for the single-round theorem: one endpoint whose lock is
already held by another token: no lock is acquired (0 of quorum 1), the
call fails and the endpoint is untouched; the retry settings 7 and 9 do
not change the outcome. -/
theorem redlock_single_round_no_retry_witness :
    decrease_stock_sync 1 "t" ⟨defaultSettings.lock_timeout_seconds, 7, 9⟩
        [⟨some 4, some ("x", 10)⟩]
      = decrease_stock_sync 1 "t" defaultSettings [⟨some 4, some ("x", 10)⟩] ∧
    decrease_stock_sync 1 "t" defaultSettings [⟨some 4, some ("x", 10)⟩]
      = ([⟨some 4, some ("x", 10)⟩], false) :=
  ⟨(redlock_single_round_no_retry 1 "t" defaultSettings 7 9 [⟨some 4, some ("x", 10)⟩]).1,
   ((redlock_single_round_no_retry 1 "t" defaultSettings 7 9
      [⟨some 4, some ("x", 10)⟩]).2.2 (by decide)).1⟩
